import Mathlib

/-!
Verification of the "Keep" asset-inventory application's access-control
policy model against its natural-language specification.

The definitions below are a shallow embedding of the repository's code:

* the database schema (tables `profiles`, `assets`, `categories`,
  `asset_assignments`, `asset_insurance`, `asset_notes`, `theft_reports`)
  from the SQL migrations, with the `CHECK`-constrained text columns
  rendered as inductive enumerations;
* the final row-level-security policy set, i.e. the policies in force
  after all migrations ran (the early permissive policies are dropped and
  recreated by the later migrations, so only the last `CREATE POLICY`
  per (table, operation) survives);
* the SQL helper functions `check_asset_ownership` and
  `get_asset_statistics`;
* the client-side service code (`DatabaseService.updateAsset`,
  `DatabaseService.createProfile`, `ensureProfileExists`,
  `ErrorHandler.handleDatabaseError`, the public QR asset view and its
  theft-report submission form).

Identifiers are `Nat` stand-ins for the opaque uuids.  Monetary values
are integers (cents are irrelevant to the properties proved).  SQL
`NULL` is `Option.none`; the SQL tri-valued comparison `col = value`
appearing in the policies is rendered by `ownerMatches`, which is false
on `NULL`, exactly as `owner_id = auth.uid()` is never satisfied by a
`NULL` owner.  The acting principal of a request is `Option Uuid`:
`some u` is an authenticated principal with `auth.uid() = u`, `none` is
the anonymous (`anon`) role.  A policy declared `TO authenticated`
yields `false` for `none`; row-level security denies when no applicable
policy allows.
-/

/-- Opaque principal / row identifiers (uuids in the source). -/
abbrev Uuid := Nat

/-- The acting principal of a request: `some u` when authenticated with
`auth.uid() = u`, `none` for the anonymous role. -/
abbrev Requester := Option Uuid

/-- Roles of the `profiles.role` column
(`CHECK (role IN ('admin', 'user', 'viewer'))`). -/
inductive Role where
  | admin
  | user
  | viewer
deriving DecidableEq, Repr

/-- Statuses of the `assets.status` column
(`CHECK (status IN ('available', 'assigned', 'maintenance', 'retired'))`). -/
inductive AssetStatus where
  | available
  | assigned
  | maintenance
  | retired
deriving DecidableEq, Repr

/-- Statuses of the `theft_reports.status` column
(`CHECK (status IN ('pending', 'resolved', 'dismissed'))`). -/
inductive ReportStatus where
  | pending
  | resolved
  | dismissed
deriving DecidableEq, Repr

/-- A row of the `profiles` table. -/
structure Profile where
  id : Uuid
  email : String
  full_name : Option String
  role : Role
deriving DecidableEq, Repr

/-- A row of the `assets` table (columns of the original migration plus
the ones added by the enhancement migration; presentation-only columns
such as timestamps and the QR url are omitted). -/
structure Asset where
  id : Uuid
  name : String
  category : String
  description : Option String
  serial_number : Option String
  status : AssetStatus
  asset_value_zar : Option Int
  asset_location : Option String
  owner_id : Option Uuid
deriving DecidableEq, Repr

/-- A row of the `categories` table.  `name` is declared
`text NOT NULL UNIQUE` — a table-wide uniqueness constraint — and
`owner_id` (nullable) is added by a later migration without altering
that constraint. -/
structure Category where
  id : Uuid
  name : String
  description : Option String
  owner_id : Option Uuid
deriving DecidableEq, Repr

/-- A row of the `asset_assignments` table.  Note there is no owner
column: ownership is derived through `asset_id`. -/
structure AssetAssignment where
  id : Uuid
  asset_id : Uuid
  assigned_to : Uuid
  assigned_by : Uuid
  due_date : Option Nat
  return_date : Option Nat
deriving DecidableEq, Repr

/-- A row of the `asset_insurance` table (`owner_id uuid NOT NULL`). -/
structure AssetInsurance where
  id : Uuid
  asset_id : Uuid
  owner_id : Uuid
  is_insured : Bool
  renewal_date : Option Nat
deriving DecidableEq, Repr

/-- A row of the `asset_notes` table (`owner_id uuid NOT NULL`). -/
structure AssetNote where
  id : Uuid
  asset_id : Uuid
  owner_id : Uuid
  note_text : String
deriving DecidableEq, Repr

/-- A row of the `theft_reports` table.  Note there is no owner column:
ownership is derived through `asset_id`. -/
structure TheftReport where
  id : Uuid
  asset_id : Uuid
  reporter_name : Option String
  reporter_email : Option String
  reporter_phone : Option String
  location : Option String
  description : Option String
  status : ReportStatus
deriving DecidableEq, Repr

/-- The entity store: the tables relevant to the policy model. -/
structure Db where
  profiles : List Profile
  assets : List Asset
  categories : List Category
  asset_assignments : List AssetAssignment
  asset_insurance : List AssetInsurance
  asset_notes : List AssetNote
  theft_reports : List TheftReport
deriving DecidableEq, Repr

/-- SQL comparison `owner_id = auth.uid()` for a nullable owner column
against a known uid: `NULL = x` is not true in SQL, so a `NULL` owner
never matches. -/
def ownerMatches (owner : Option Uuid) (u : Uuid) : Bool :=
  match owner with
  | some v => v == u
  | none => false

/-- The `EXISTS (SELECT 1 FROM assets WHERE assets.id = <aid> AND
assets.owner_id = auth.uid())` subquery shared by the assignment and
theft-report policies. -/
def existsOwnedAsset (db : Db) (aid : Uuid) (u : Uuid) : Bool :=
  db.assets.any (fun a => a.id == aid && ownerMatches a.owner_id u)

/-- SQL function `check_asset_ownership(asset_uuid, user_uuid)`:
`SELECT EXISTS (SELECT 1 FROM assets WHERE id = asset_uuid AND
owner_id = user_uuid)`. -/
def check_asset_ownership (db : Db) (asset_uuid : Uuid) (user_uuid : Uuid) : Bool :=
  db.assets.any (fun a => a.id == asset_uuid && ownerMatches a.owner_id user_uuid)

/-- Policy "Users can view their own assets": `FOR SELECT TO
authenticated USING (owner_id = auth.uid())`.  The anonymous role has no
`SELECT` policy on `assets`, so it is denied. -/
def assetsSelectAllowed (req : Requester) (a : Asset) : Bool :=
  match req with
  | some u => ownerMatches a.owner_id u
  | none => false

/-- Policy "Users can insert their own assets": `FOR INSERT TO
authenticated WITH CHECK (owner_id = auth.uid())`. -/
def assetsInsertAllowed (req : Requester) (a : Asset) : Bool :=
  match req with
  | some u => ownerMatches a.owner_id u
  | none => false

/-- Policy "Users can update their own assets": `FOR UPDATE TO
authenticated USING (owner_id = auth.uid()) WITH CHECK (owner_id =
auth.uid())` — here the `USING` half, which gates which rows the update
can reach. -/
def assetsUpdateUsing (req : Requester) (a : Asset) : Bool :=
  match req with
  | some u => ownerMatches a.owner_id u
  | none => false

/-- Policy "Users can view categories": `FOR SELECT TO authenticated
USING (owner_id = auth.uid() OR owner_id IS NULL)`. -/
def categoriesSelectAllowed (req : Requester) (c : Category) : Bool :=
  match req with
  | some u => ownerMatches c.owner_id u || c.owner_id.isNone
  | none => false

/-- Policy "Users can view assignments for their assets": `FOR SELECT TO
authenticated USING (EXISTS (SELECT 1 FROM assets WHERE assets.id =
asset_assignments.asset_id AND assets.owner_id = auth.uid()))`. -/
def assignmentsSelectAllowed (req : Requester) (db : Db) (r : AssetAssignment) : Bool :=
  match req with
  | some u => existsOwnedAsset db r.asset_id u
  | none => false

/-- Policy "Users can create assignments for their assets": `FOR INSERT
TO authenticated WITH CHECK` of the same `EXISTS` subquery. -/
def assignmentsInsertAllowed (req : Requester) (db : Db) (r : AssetAssignment) : Bool :=
  match req with
  | some u => existsOwnedAsset db r.asset_id u
  | none => false

/-- Policy "Users can update assignments for their assets": `FOR UPDATE
TO authenticated USING`/`WITH CHECK` of the same `EXISTS` subquery
(the `USING` half). -/
def assignmentsUpdateAllowed (req : Requester) (db : Db) (r : AssetAssignment) : Bool :=
  match req with
  | some u => existsOwnedAsset db r.asset_id u
  | none => false

/-- Policy "Anyone can create theft reports": `FOR INSERT TO anon,
authenticated WITH CHECK (true)`. -/
def theftInsertAllowed (_req : Requester) (_r : TheftReport) : Bool :=
  true

/-- Policy "Asset owners can view theft reports for their assets": `FOR
SELECT TO authenticated USING (EXISTS (SELECT 1 FROM assets WHERE
assets.id = theft_reports.asset_id AND assets.owner_id =
auth.uid()))`. -/
def theftSelectAllowed (req : Requester) (db : Db) (r : TheftReport) : Bool :=
  match req with
  | some u => existsOwnedAsset db r.asset_id u
  | none => false

/-- Policy "Asset owners can update theft reports for their assets":
`FOR UPDATE TO authenticated` with the same `EXISTS` subquery (the
`USING` half). -/
def theftUpdateAllowed (req : Requester) (db : Db) (r : TheftReport) : Bool :=
  match req with
  | some u => existsOwnedAsset db r.asset_id u
  | none => false

/-- The rows of `assets` visible to a requester under row-level
security: exactly those admitted by the `SELECT` policy. -/
def visibleAssets (req : Requester) (db : Db) : List Asset :=
  db.assets.filter (assetsSelectAllowed req)

/-- Ownership of an asset id, as a proposition: some stored asset row
has this id and this owner. -/
def ownsAsset (db : Db) (u : Uuid) (aid : Uuid) : Prop :=
  ∃ a ∈ db.assets, a.id = aid ∧ a.owner_id = some u

instance (db : Db) (u aid : Uuid) : Decidable (ownsAsset db u aid) := by
  unfold ownsAsset
  infer_instance

/-- The derived (resolved) owner of an asset id: follow the reference to
the `assets` table and read that row's `owner_id`. -/
def resolvedOwner (db : Db) (aid : Uuid) : Option Uuid :=
  (db.assets.find? (fun a => a.id == aid)).bind Asset.owner_id

/-- The resolved owner of an `asset_assignments` row: the row stores no
owner, so ownership is derived through its `asset_id` foreign key. -/
def resolveAssignmentOwner (db : Db) (r : AssetAssignment) : Option Uuid :=
  resolvedOwner db r.asset_id

/-- `ErrorHandler.handleDatabaseError` (error-handling.ts): maps a
PostgREST/PostgreSQL error, identified by its `code` when present, to a
user-facing message; without a recognised code it falls back to the raw
message. -/
def handleDatabaseError (code : Option String) (message : String) : String :=
  match code with
  | some c =>
    if c = "23505" then "This record already exists. Please use different values."
    else if c = "23503" then "Cannot perform this operation due to related records."
    else if c = "23502" then "Required fields are missing."
    else if c = "42501" then "You do not have permission to perform this action."
    else if c = "PGRST116" then "The requested record was not found."
    else if c = "PGRST301" then "Access denied. You can only access your own data."
    else message
  | none => message

/-- A partial update of an `assets` row, as sent by
`DatabaseService.updateAsset` (`Tables['assets']['Update']`): absent
fields are left unchanged. -/
structure AssetUpdate where
  name : Option String := none
  category : Option String := none
  description : Option (Option String) := none
  status : Option AssetStatus := none
  asset_value_zar : Option (Option Int) := none
  asset_location : Option (Option String) := none
deriving DecidableEq, Repr

/-- Apply a partial update to an asset row. -/
def applyAssetUpdate (upd : AssetUpdate) (a : Asset) : Asset :=
  { a with
    name := upd.name.getD a.name
    category := upd.category.getD a.category
    description := upd.description.getD a.description
    status := upd.status.getD a.status
    asset_value_zar := upd.asset_value_zar.getD a.asset_value_zar
    asset_location := upd.asset_location.getD a.asset_location }

/-- `DatabaseService.updateAsset` (database.ts): `UPDATE assets SET ...
WHERE id = <id> AND owner_id = <ownerId>` followed by `.select()
.single()`.  Row-level security restricts the update to rows admitted
by the `UPDATE` policy's `USING` clause; `.single()` yields error code
`PGRST116` unless exactly one row came back. -/
def updateAsset (db : Db) (req : Requester) (id : Uuid) (upd : AssetUpdate)
    (ownerId : Uuid) : Except String Asset :=
  let touched := db.assets.filter
    (fun a => a.id == id && ownerMatches a.owner_id ownerId && assetsUpdateUsing req a)
  match touched with
  | [a] => .ok (applyAssetUpdate upd a)
  | _ => .error "PGRST116"

/-- The restricted projection the public QR page requests:
`.select('id, name, category')` in `fetchAssetDetails`
(PublicAssetView.tsx). -/
structure PublicAssetInfo where
  id : Uuid
  name : String
  category : String
deriving DecidableEq, Repr

/-- `fetchAssetDetails` (PublicAssetView.tsx): `SELECT id, name,
category FROM assets WHERE id = <aid>` with `.single()`, evaluated over
the rows row-level security lets the requester see.  `.single()` yields
error code `PGRST116` unless exactly one row came back. -/
def fetchPublicAsset (req : Requester) (db : Db) (aid : Uuid) :
    Except String PublicAssetInfo :=
  match (visibleAssets req db).filter (fun a => a.id == aid) with
  | [a] => .ok { id := a.id, name := a.name, category := a.category }
  | _ => .error "PGRST116"

/-- The public theft-report form of PublicAssetView.tsx.  The `name`
and `location` inputs carry the `required` attribute; email, phone and
description are optional. -/
structure TheftReportForm where
  name : String
  email : String
  phone : String
  location : String
  description : String
deriving DecidableEq, Repr

/-- Field validation of the public report form: exactly the two
`required` inputs must be non-empty. -/
def validTheftReportForm (f : TheftReportForm) : Bool :=
  !(f.name == "") && !(f.location == "")

/-- The row `handleSubmit` (PublicAssetView.tsx) inserts: the form
fields plus `asset_id` and `status: 'pending'`. -/
def mkTheftReport (rid : Uuid) (aid : Uuid) (f : TheftReportForm) : TheftReport :=
  { id := rid
    asset_id := aid
    reporter_name := some f.name
    reporter_email := some f.email
    reporter_phone := some f.phone
    location := some f.location
    description := some f.description
    status := .pending }

/-- `handleSubmit` (PublicAssetView.tsx) end to end: the browser blocks
submission unless the `required` fields are filled; the insert is then
subject to the theft-report `INSERT` policy and to the foreign key
`asset_id REFERENCES assets(id)` (error code `23503` when the parent
row is missing). -/
def submitTheftReport (req : Requester) (db : Db) (rid aid : Uuid)
    (f : TheftReportForm) : Except String Db :=
  if validTheftReportForm f then
    let r := mkTheftReport rid aid f
    if theftInsertAllowed req r then
      if db.assets.any (fun a => a.id == aid) then
        .ok { db with theft_reports := db.theft_reports ++ [r] }
      else .error "23503"
    else .error "42501"
  else .error "validation"

/-- Raw `INSERT INTO profiles`: the primary key on `id` rejects a
duplicate principal id with error code `23505`. -/
def dbInsertProfile (db : Db) (p : Profile) : Except String Db :=
  if db.profiles.any (fun q => q.id == p.id) then .error "23505"
  else .ok { db with profiles := db.profiles ++ [p] }

/-- `DatabaseService.getProfile` (database.ts): `.single()` on the row
with this id, with `PGRST116` (row not found) mapped to a `null` result
rather than an error. -/
def getProfile (db : Db) (userId : Uuid) : Option Profile :=
  db.profiles.find? (fun q => q.id == userId)

/-- `DatabaseService.createProfile` (database.ts): insert the profile;
on the duplicate-key error `23505` fall back to fetching the existing
profile and return it as a success.  The returned pair is the resulting
store and the outcome surfaced to the caller. -/
def createProfile (db : Db) (p : Profile) : Db × Except String (Option Profile) :=
  match dbInsertProfile db p with
  | .ok db' => (db', .ok (some p))
  | .error code =>
    if code = "23505" then (db, .ok (getProfile db p.id))
    else (db, .error code)

/-- The authentication subsystem's view of a user, as consumed by the
profile-bootstrap code (`user.id`, `user.email`,
`user.user_metadata.full_name`, `user.user_metadata.name`). -/
structure AuthUser where
  id : Uuid
  email : Option String
  meta_full_name : Option String
  meta_name : Option String
deriving DecidableEq, Repr

/-- The profile row `ensureProfileExists` (AuthContext) inserts:
`role: 'admin'` is hardcoded. -/
def ensureProfileInsertRow (u : AuthUser) : Profile :=
  { id := u.id
    email := u.email.getD ""
    full_name := some (u.meta_full_name.getD (u.meta_name.getD ""))
    role := .admin }

/-- Outcome of a profile-bootstrap attempt as seen by its caller:
either clean success or a logged (but swallowed) error code. -/
inductive EnsureOutcome where
  | ok
  | logged (code : String)
deriving DecidableEq, Repr

/-- The insert half of `ensureProfileExists` (AuthContext): attempt the
insert and treat the duplicate-key conflict `23505` as success ("profile
was created by another concurrent operation, this is fine"); other
errors are logged, not thrown. -/
def profileInsertHandled (db : Db) (u : AuthUser) : Db × EnsureOutcome :=
  match dbInsertProfile db (ensureProfileInsertRow u) with
  | .ok db' => (db', .ok)
  | .error code =>
    if code = "23505" then (db, .ok)
    else (db, .logged code)

/-- `ensureProfileExists` (AuthContext): check for an existing profile
(`maybeSingle`), and only insert when none was found. -/
def ensureProfileExists (db : Db) (u : AuthUser) : Db × EnsureOutcome :=
  match db.profiles.find? (fun q => q.id == u.id) with
  | some _ => (db, .ok)
  | none => profileInsertHandled db u

/-- The profile row `AuthService.ensureProfileExists` (auth.ts) passes
to `DatabaseService.createProfile`: `role: 'admin' as const`. -/
def authServiceProfileRow (u : AuthUser) : Profile :=
  { id := u.id
    email := u.email.getD ""
    full_name := some (u.meta_full_name.getD (u.meta_name.getD ""))
    role := .admin }

/-- The profile row the `signUp` path of the AuthContext inserts right
after registration: `role: 'admin'`. -/
def signUpProfileRow (id : Uuid) (email fullName : String) : Profile :=
  { id := id, email := email, full_name := some fullName, role := .admin }

/-- The declared default of the `profiles.role` column in the schema:
`DEFAULT 'user'`. -/
def profilesRoleDefault : Role := .user

/-- `INSERT INTO categories` under the schema of the initial migration:
`name text NOT NULL UNIQUE` makes the insert fail with the
duplicate-key error `23505` whenever any stored category — regardless
of owner — already bears the name. -/
def insertCategory (db : Db) (c : Category) : Except String Db :=
  if db.categories.any (fun d => d.name == c.name) then .error "23505"
  else .ok { db with categories := db.categories ++ [c] }

/-- The table-wide uniqueness invariant the `UNIQUE` constraint on
`categories.name` maintains. -/
def categoriesNameUnique (db : Db) : Prop :=
  (db.categories.map Category.name).Nodup

instance (db : Db) : Decidable (categoriesNameUnique db) := by
  unfold categoriesNameUnique
  infer_instance

/-- Result shape of the SQL function `get_asset_statistics`. -/
structure AssetStatistics where
  total_assets : Nat
  available_assets : Nat
  assigned_assets : Nat
  maintenance_assets : Nat
  retired_assets : Nat
  total_value : Int
  insured_assets : Nat
  assets_with_notes : Nat
deriving DecidableEq, Repr

/-- SQL function `get_asset_statistics(user_uuid)` (dry_jungle
migration).  It is declared `SECURITY DEFINER`, so it reads the tables
directly, bypassing row-level security, and scopes every aggregate by
its `user_uuid` argument — not by `auth.uid()`. -/
def get_asset_statistics (db : Db) (user_uuid : Uuid) : AssetStatistics :=
  let rows := db.assets.filter (fun a => ownerMatches a.owner_id user_uuid)
  { total_assets := rows.length
    available_assets := (rows.filter (fun a => a.status == .available)).length
    assigned_assets := (rows.filter (fun a => a.status == .assigned)).length
    maintenance_assets := (rows.filter (fun a => a.status == .maintenance)).length
    retired_assets := (rows.filter (fun a => a.status == .retired)).length
    total_value := ((rows.map (fun a => a.asset_value_zar.getD 0)).sum : Int)
    insured_assets :=
      (db.asset_insurance.filter
        (fun ai => ai.owner_id == user_uuid && ai.is_insured)).length
    assets_with_notes :=
      ((db.asset_notes.filter (fun an => an.owner_id == user_uuid)).map
        AssetNote.asset_id).dedup.length }

/-- `GRANT EXECUTE ON FUNCTION get_asset_statistics TO authenticated`:
any authenticated principal may invoke the function (with any
`user_uuid` argument); the anonymous role may not. -/
def canExecuteStatistics (req : Requester) : Bool :=
  req.isSome

/-- Unfolding of the SQL null-aware owner comparison. -/
lemma ownerMatches_eq_true {o : Option Uuid} {u : Uuid} :
    ownerMatches o u = true ↔ o = some u := by
  cases o <;> simp [ownerMatches]

/-- The policies' `EXISTS` subquery holds exactly when the requester
owns some stored asset row with the given id. -/
lemma existsOwnedAsset_iff {db : Db} {aid u : Uuid} :
    existsOwnedAsset db aid u = true ↔ ownsAsset db u aid := by
  simp [existsOwnedAsset, ownsAsset, List.any_eq_true, ownerMatches_eq_true,
    Bool.and_eq_true, beq_iff_eq]

/-- When no stored asset bears the id, the `EXISTS` subquery is false
for every requester. -/
lemma existsOwnedAsset_eq_false_of_missing {db : Db} {aid u : Uuid}
    (h : ∀ a ∈ db.assets, a.id ≠ aid) : existsOwnedAsset db aid u = false := by
  rw [Bool.eq_false_iff]
  intro hc
  rcases existsOwnedAsset_iff.mp hc with ⟨a, ha, haid, _⟩
  exact h a ha haid

/-- Two members of a list agreeing on a duplicate-free key are the same
element. -/
lemma mem_eq_of_map_nodup {α β : Type} {f : α → β} {l : List α}
    (h : (l.map f).Nodup) {a b : α} (ha : a ∈ l) (hb : b ∈ l)
    (hf : f a = f b) : a = b := by
  induction l with
  | nil => cases ha
  | cons x xs ih =>
    rw [List.map_cons, List.nodup_cons] at h
    rcases List.mem_cons.mp ha with rfl | ha'
    · rcases List.mem_cons.mp hb with rfl | hb'
      · rfl
      · exact absurd (hf ▸ List.mem_map_of_mem f hb') h.1
    · rcases List.mem_cons.mp hb with rfl | hb'
      · exact absurd (hf ▸ List.mem_map_of_mem f ha') h.1
      · exact ih h.2 ha' hb'

/-- Following `find?` on a duplicate-free key and reading the owner
agrees with the existential ownership statement. -/
lemma find_owner_iff (l : List Asset) (aid u : Uuid)
    (h : (l.map Asset.id).Nodup) :
    ((l.find? (fun a => a.id == aid)).bind Asset.owner_id = some u) ↔
      ∃ a ∈ l, a.id = aid ∧ a.owner_id = some u := by
  induction l with
  | nil => simp
  | cons x xs ih =>
    rw [List.map_cons, List.nodup_cons] at h
    by_cases hx : x.id = aid
    · rw [List.find?_cons_of_pos xs (by simp [hx])]
      simp only [Option.some_bind]
      constructor
      · intro h1
        exact ⟨x, List.mem_cons_self x xs, hx, h1⟩
      · rintro ⟨a, ha, haid, hown⟩
        rcases List.mem_cons.mp ha with rfl | ha'
        · exact hown
        · exact absurd (List.mem_map.mpr ⟨a, ha', haid.trans hx.symm⟩) h.1
    · rw [List.find?_cons_of_neg xs (by simp [hx])]
      rw [ih h.2]
      constructor
      · rintro ⟨a, ha, rest⟩
        exact ⟨a, List.mem_cons_of_mem x ha, rest⟩
      · rintro ⟨a, ha, haid, hown⟩
        rcases List.mem_cons.mp ha with rfl | ha'
        · exact absurd haid hx
        · exact ⟨a, ha', haid, hown⟩

/-- Under the primary-key discipline on `assets.id`, derived ownership
resolves to `some u` exactly when `u` owns the referenced asset. -/
lemma resolvedOwner_eq_some_iff {db : Db} {aid u : Uuid}
    (h : (db.assets.map Asset.id).Nodup) :
    resolvedOwner db aid = some u ↔ ownsAsset db u aid := by
  unfold resolvedOwner ownsAsset
  exact find_owner_iff db.assets aid u h

/-- Sample asset owned by principal 10, used by concrete witnesses. -/
def assetC1 : Asset :=
  { id := 1, name := "Laptop", category := "Electronics", description := none
    serial_number := none, status := .available, asset_value_zar := none
    asset_location := none, owner_id := some 10 }

/-- Sample store holding only `assetC1`. -/
def dbC1 : Db :=
  { profiles := [], assets := [assetC1], categories := [], asset_assignments := []
    asset_insurance := [], asset_notes := [], theft_reports := [] }

/-- Claim C1: for every asset row and every authenticated principal
other than its owner, the asset `SELECT` policy denies the read and the
row is not among the rows the principal can see; the rule admits a row
exactly when its `owner_id` equals the requester's id. -/
theorem asset_read_denied_for_non_owner (db : Db) (a : Asset) (p : Uuid)
    (h : a.owner_id ≠ some p) :
    assetsSelectAllowed (some p) a = false
    ∧ (∀ q : Uuid, assetsSelectAllowed (some q) a = true ↔ a.owner_id = some q)
    ∧ a ∉ visibleAssets (some p) db := by
  refine ⟨?_, ?_, ?_⟩
  · simp only [assetsSelectAllowed]
    rw [Bool.eq_false_iff]
    intro hc
    exact h (ownerMatches_eq_true.mp hc)
  · intro q
    simp only [assetsSelectAllowed]
    exact ownerMatches_eq_true
  · intro hmem
    unfold visibleAssets at hmem
    have hall := (List.mem_filter.mp hmem).2
    simp only [assetsSelectAllowed] at hall
    exact h (ownerMatches_eq_true.mp hall)

/-- Witness for claim C1 at a concrete non-owner principal. -/
theorem asset_read_denied_for_non_owner_witness :
    assetC1.owner_id ≠ some 20
    ∧ assetsSelectAllowed (some 20) assetC1 = false
    ∧ assetC1 ∉ visibleAssets (some 20) dbC1 :=
  ⟨by decide, (asset_read_denied_for_non_owner dbC1 assetC1 20 (by decide)).1,
    (asset_read_denied_for_non_owner dbC1 assetC1 20 (by decide)).2.2⟩

/-- Claim C2: anyone — authenticated or anonymous — may create a theft
report, subject only to the form's field validation (and the foreign
key to an existing asset); once stored, a report is readable exactly by
principals owning the referenced asset, and never by the anonymous
role. -/
theorem theft_report_public_create_owner_read (db : Db) (rid aid : Uuid)
    (f : TheftReportForm) (r : TheftReport)
    (hvalid : validTheftReportForm f = true)
    (hasset : ∃ a ∈ db.assets, a.id = aid) :
    (∀ req : Requester,
      submitTheftReport req db rid aid f =
        .ok { db with theft_reports := db.theft_reports ++ [mkTheftReport rid aid f] })
    ∧ (∀ u : Uuid, theftSelectAllowed (some u) db r = true ↔ ownsAsset db u r.asset_id)
    ∧ theftSelectAllowed none db r = false := by
  refine ⟨?_, ?_, rfl⟩
  · intro req
    rcases hasset with ⟨a, ha, haid⟩
    have hany : db.assets.any (fun a => a.id == aid) = true :=
      List.any_eq_true.mpr ⟨a, ha, by simp [haid]⟩
    simp [submitTheftReport, hvalid, theftInsertAllowed, hany]
  · intro u
    simp only [theftSelectAllowed]
    exact existsOwnedAsset_iff

/-- Sample public report form with the two required fields filled. -/
def formC2 : TheftReportForm :=
  { name := "Sam", email := "", phone := "", location := "Park", description := "" }

/-- Witness for claim C2: the anonymous visitor's submission against the
store `dbC1` (asset 1 owned by principal 10) succeeds, and the stored
report is readable by the owner 10 but not by principal 20 or anon. -/
theorem theft_report_public_create_owner_read_witness :
    validTheftReportForm formC2 = true
    ∧ (∃ a ∈ dbC1.assets, a.id = 1)
    ∧ submitTheftReport none dbC1 7 1 formC2 =
        .ok { dbC1 with theft_reports := dbC1.theft_reports ++ [mkTheftReport 7 1 formC2] }
    ∧ (theftSelectAllowed (some 10) dbC1 (mkTheftReport 7 1 formC2) = true ↔
        ownsAsset dbC1 10 (mkTheftReport 7 1 formC2).asset_id)
    ∧ theftSelectAllowed none dbC1 (mkTheftReport 7 1 formC2) = false :=
  ⟨by decide, by decide,
    (theft_report_public_create_owner_read dbC1 7 1 formC2 (mkTheftReport 7 1 formC2)
      (by decide) (by decide)).1 none,
    (theft_report_public_create_owner_read dbC1 7 1 formC2 (mkTheftReport 7 1 formC2)
      (by decide) (by decide)).2.1 10,
    (theft_report_public_create_owner_read dbC1 7 1 formC2 (mkTheftReport 7 1 formC2)
      (by decide) (by decide)).2.2⟩

/-- Claim C3: an assignment row stores no owner; its resolved owner is
the one derived through the `asset_id` foreign key, and — under the
primary-key discipline on `assets.id` — its `SELECT` and `UPDATE`
policies admit an authenticated requester exactly when the requester is
that resolved owner; the anonymous role is always denied. -/
theorem assignment_ownership_derived (db : Db) (r : AssetAssignment) (u : Uuid)
    (hids : (db.assets.map Asset.id).Nodup) :
    resolveAssignmentOwner db r = resolvedOwner db r.asset_id
    ∧ (assignmentsSelectAllowed (some u) db r = true ↔
        resolveAssignmentOwner db r = some u)
    ∧ (assignmentsUpdateAllowed (some u) db r = true ↔
        resolveAssignmentOwner db r = some u)
    ∧ assignmentsSelectAllowed none db r = false
    ∧ assignmentsUpdateAllowed none db r = false := by
  have key : existsOwnedAsset db r.asset_id u = true ↔
      resolveAssignmentOwner db r = some u := by
    rw [existsOwnedAsset_iff]
    exact (resolvedOwner_eq_some_iff hids).symm
  exact ⟨rfl, key, key, rfl, rfl⟩

/-- Sample assignment of asset 1 (owned by 10) to principal 30. -/
def assignC3 : AssetAssignment :=
  { id := 4, asset_id := 1, assigned_to := 30, assigned_by := 10
    due_date := none, return_date := none }

/-- Witness for claim C3 at the concrete store `dbC1`. -/
theorem assignment_ownership_derived_witness :
    (dbC1.assets.map Asset.id).Nodup
    ∧ resolveAssignmentOwner dbC1 assignC3 = resolvedOwner dbC1 assignC3.asset_id
    ∧ (assignmentsSelectAllowed (some 10) dbC1 assignC3 = true ↔
        resolveAssignmentOwner dbC1 assignC3 = some 10)
    ∧ assignmentsSelectAllowed none dbC1 assignC3 = false :=
  ⟨by decide, (assignment_ownership_derived dbC1 assignC3 10 (by decide)).1,
    (assignment_ownership_derived dbC1 assignC3 10 (by decide)).2.1,
    (assignment_ownership_derived dbC1 assignC3 10 (by decide)).2.2.2.1⟩

/-- Claim C4 (code defect): every `SELECT` policy on `assets` is
declared `TO authenticated`, so the anonymous role sees no asset rows
at all and the public QR page's restricted `{id, name, category}`
projection always fails with a row-not-found error — there is no
anonymous read rule under which it could succeed. -/
theorem public_asset_view_anonymous_denied (db : Db) (aid : Uuid) :
    visibleAssets none db = []
    ∧ fetchPublicAsset none db aid = .error "PGRST116" := by
  have hvis : visibleAssets none db = [] := by
    unfold visibleAssets
    apply List.filter_eq_nil_iff.mpr
    intro a _
    simp [assetsSelectAllowed]
  refine ⟨hvis, ?_⟩
  unfold fetchPublicAsset
  rw [hvis]
  rfl

/-- Claim C5: ownership resolution fails closed — when no stored asset
bears the referenced id, the `check_asset_ownership` helper returns
false and every assignment and theft-report policy denies, for every
requester. -/
theorem missing_parent_fails_closed (db : Db) (aid u : Uuid)
    (r : AssetAssignment) (t : TheftReport)
    (hmiss : ∀ a ∈ db.assets, a.id ≠ aid)
    (hr : r.asset_id = aid) (ht : t.asset_id = aid) :
    check_asset_ownership db aid u = false
    ∧ (∀ req : Requester, assignmentsSelectAllowed req db r = false)
    ∧ (∀ req : Requester, assignmentsInsertAllowed req db r = false)
    ∧ (∀ req : Requester, assignmentsUpdateAllowed req db r = false)
    ∧ (∀ req : Requester, theftSelectAllowed req db t = false)
    ∧ (∀ req : Requester, theftUpdateAllowed req db t = false) := by
  have hfalse : ∀ v : Uuid, existsOwnedAsset db aid v = false :=
    fun _ => existsOwnedAsset_eq_false_of_missing hmiss
  refine ⟨hfalse u, ?_, ?_, ?_, ?_, ?_⟩ <;>
    · intro req
      cases req with
      | none => rfl
      | some v =>
        first
        | (simp only [assignmentsSelectAllowed, hr]; exact hfalse v)
        | (simp only [assignmentsInsertAllowed, hr]; exact hfalse v)
        | (simp only [assignmentsUpdateAllowed, hr]; exact hfalse v)
        | (simp only [theftSelectAllowed, ht]; exact hfalse v)
        | (simp only [theftUpdateAllowed, ht]; exact hfalse v)

/-- Sample assignment referencing a nonexistent asset id 5. -/
def assignC5 : AssetAssignment :=
  { id := 8, asset_id := 5, assigned_to := 30, assigned_by := 10
    due_date := none, return_date := none }

/-- Sample theft report referencing a nonexistent asset id 5. -/
def reportC5 : TheftReport :=
  { id := 9, asset_id := 5, reporter_name := none, reporter_email := none
    reporter_phone := none, location := none, description := none
    status := .pending }

/-- Witness for claim C5 at the concrete store `dbC1`, which holds no
asset with id 5. -/
theorem missing_parent_fails_closed_witness :
    (∀ a ∈ dbC1.assets, a.id ≠ 5)
    ∧ check_asset_ownership dbC1 5 1 = false
    ∧ assignmentsSelectAllowed (some 1) dbC1 assignC5 = false
    ∧ theftSelectAllowed (some 1) dbC1 reportC5 = false :=
  ⟨by decide,
    (missing_parent_fails_closed dbC1 5 1 assignC5 reportC5 (by decide) (by decide)
      (by decide)).1,
    (missing_parent_fails_closed dbC1 5 1 assignC5 reportC5 (by decide) (by decide)
      (by decide)).2.1 (some 1),
    (missing_parent_fails_closed dbC1 5 1 assignC5 reportC5 (by decide) (by decide)
      (by decide)).2.2.2.2.1 (some 1)⟩

/-- Sample asset of principal 10 with a recorded value, for the
aggregate-leak evaluation. -/
def leakAsset : Asset :=
  { id := 2, name := "Car", category := "Vehicles", description := none
    serial_number := none, status := .available, asset_value_zar := some 500000
    asset_location := none, owner_id := some 10 }

/-- Sample store holding only `leakAsset`. -/
def leakDb : Db :=
  { profiles := [], assets := [leakAsset], categories := [], asset_assignments := []
    asset_insurance := [], asset_notes := [], theft_reports := [] }

/-- Claim C6 (code defect): `get_asset_statistics` is `SECURITY
DEFINER` and granted to every authenticated principal while scoping its
totals by its caller-chosen `user_uuid` argument; so principal 20 — who
cannot see principal 10's asset through the `SELECT` policy — may
invoke the function with argument 10 and receive the full aggregate
over principal 10's assets. -/
theorem statistics_cross_tenant_leak :
    canExecuteStatistics (some 20) = true
    ∧ (20 : Uuid) ≠ 10
    ∧ assetsSelectAllowed (some 20) leakAsset = false
    ∧ get_asset_statistics leakDb 10 =
        { total_assets := 1, available_assets := 1, assigned_assets := 0
          maintenance_assets := 0, retired_assets := 0, total_value := 500000
          insured_assets := 0, assets_with_notes := 0 } := by decide

/-- Claim C7: a requester whose ownership check fails gets a uniform
outcome — `updateAsset` returns the same `PGRST116` row-not-found error
whether the target record is absent or present under another owner, and
`handleDatabaseError` maps it to one fixed user-facing message, so the
two cases are indistinguishable. -/
theorem update_denial_uniform (db₁ db₂ : Db) (p id ownerId : Uuid)
    (upd : AssetUpdate)
    (h₁ : ∀ a ∈ db₁.assets, a.id ≠ id)
    (h₂ : ∀ a ∈ db₂.assets, a.id = id → a.owner_id ≠ some p) :
    updateAsset db₁ (some p) id upd ownerId = .error "PGRST116"
    ∧ updateAsset db₂ (some p) id upd ownerId = .error "PGRST116"
    ∧ updateAsset db₁ (some p) id upd ownerId
        = updateAsset db₂ (some p) id upd ownerId
    ∧ handleDatabaseError (some "PGRST116") ""
        = "The requested record was not found." := by
  have k₁ : db₁.assets.filter
      (fun a => a.id == id && ownerMatches a.owner_id ownerId
        && assetsUpdateUsing (some p) a) = [] := by
    apply List.filter_eq_nil_iff.mpr
    intro a ha hand
    rw [Bool.and_eq_true, Bool.and_eq_true] at hand
    exact h₁ a ha (by simpa using hand.1.1)
  have k₂ : db₂.assets.filter
      (fun a => a.id == id && ownerMatches a.owner_id ownerId
        && assetsUpdateUsing (some p) a) = [] := by
    apply List.filter_eq_nil_iff.mpr
    intro a ha hand
    rw [Bool.and_eq_true, Bool.and_eq_true] at hand
    have hus := hand.2
    simp only [assetsUpdateUsing] at hus
    exact h₂ a ha (by simpa using hand.1.1) (ownerMatches_eq_true.mp hus)
  have e₁ : updateAsset db₁ (some p) id upd ownerId = .error "PGRST116" := by
    simp only [updateAsset, k₁]
  have e₂ : updateAsset db₂ (some p) id upd ownerId = .error "PGRST116" := by
    simp only [updateAsset, k₂]
  exact ⟨e₁, e₂, e₁.trans e₂.symm, by decide⟩

/-- Empty store, used by concrete witnesses. -/
def dbEmpty : Db :=
  { profiles := [], assets := [], categories := [], asset_assignments := []
    asset_insurance := [], asset_notes := [], theft_reports := [] }

/-- Witness for claim C7: principal 20 updating asset 1 gets the same
error against an empty store (record absent) and against `dbC1`, where
asset 1 exists but belongs to principal 10. -/
theorem update_denial_uniform_witness :
    (∀ a ∈ dbEmpty.assets, a.id ≠ 1)
    ∧ (∀ a ∈ dbC1.assets, a.id = 1 → a.owner_id ≠ some 20)
    ∧ updateAsset dbEmpty (some 20) 1 {} 20 = .error "PGRST116"
    ∧ updateAsset dbEmpty (some 20) 1 {} 20 = updateAsset dbC1 (some 20) 1 {} 20 :=
  ⟨by decide, by decide,
    (update_denial_uniform dbEmpty dbC1 20 1 20 {} (by decide) (by decide)).1,
    (update_denial_uniform dbEmpty dbC1 20 1 20 {} (by decide) (by decide)).2.2.1⟩

/-- Claim C8: profile creation is idempotent per principal id.  Against
a store without the profile, `createProfile` inserts it and succeeds; a
second `createProfile` for the same id hits the duplicate-key conflict
`23505`, is treated as success returning the stored profile, and leaves
the store unchanged with exactly one record under that id; likewise the
insert half of the session-bootstrap `ensureProfileExists` (the loser
of a concurrent race) treats the conflict as success. -/
theorem profile_creation_idempotent (db : Db) (p : Profile)
    (hfresh : ∀ q ∈ db.profiles, q.id ≠ p.id) :
    createProfile db p = ({ db with profiles := db.profiles ++ [p] }, .ok (some p))
    ∧ createProfile { db with profiles := db.profiles ++ [p] } p
        = ({ db with profiles := db.profiles ++ [p] }, .ok (some p))
    ∧ (({ db with profiles := db.profiles ++ [p] } : Db).profiles.filter
        (fun q => q.id == p.id)).length = 1
    ∧ (∀ u : AuthUser, u.id = p.id →
        profileInsertHandled { db with profiles := db.profiles ++ [p] } u
          = ({ db with profiles := db.profiles ++ [p] }, .ok))
    ∧ (∀ u : AuthUser, u.id = p.id →
        ensureProfileExists { db with profiles := db.profiles ++ [p] } u
          = ({ db with profiles := db.profiles ++ [p] }, .ok)) := by
  have hany0 : db.profiles.any (fun q => q.id == p.id) = false := by
    rw [Bool.eq_false_iff]
    intro hc
    rcases List.any_eq_true.mp hc with ⟨q, hq, hbeq⟩
    exact hfresh q hq (by simpa using hbeq)
  have hfilter0 : db.profiles.filter (fun q => q.id == p.id) = [] :=
    List.filter_eq_nil_iff.mpr (fun q hq => by simpa using hfresh q hq)
  have hany1 : (db.profiles ++ [p]).any (fun q => q.id == p.id) = true :=
    List.any_eq_true.mpr ⟨p, by simp, by simp⟩
  have hfind1 : (db.profiles ++ [p]).find? (fun q => q.id == p.id) = some p := by
    rw [List.find?_append]
    have hnone : db.profiles.find? (fun q => q.id == p.id) = none :=
      List.find?_eq_none.mpr (fun q hq => by simpa using hfresh q hq)
    rw [hnone]
    simp
  refine ⟨?_, ?_, ?_, ?_, ?_⟩
  · simp [createProfile, dbInsertProfile, hany0]
  · simp [createProfile, dbInsertProfile, hany1, getProfile, hfind1]
  · simp [List.filter_append, hfilter0]
  · intro u hu
    have hany2 : (db.profiles ++ [p]).any
        (fun q => q.id == (ensureProfileInsertRow u).id) = true := by
      simp only [ensureProfileInsertRow, hu]
      exact hany1
    simp [profileInsertHandled, dbInsertProfile, hany2]
  · intro u hu
    have hfind2 : (db.profiles ++ [p]).find? (fun q => q.id == u.id) = some p := by
      simpa [hu] using hfind1
    simp [ensureProfileExists, hfind2]

/-- Sample profile record for the idempotence witness. -/
def profileC8 : Profile :=
  { id := 3, email := "a@example.com", full_name := some "A", role := .admin }

/-- Witness for claim C8: a double create against the empty store. -/
theorem profile_creation_idempotent_witness :
    (∀ q ∈ dbEmpty.profiles, q.id ≠ profileC8.id)
    ∧ createProfile dbEmpty profileC8
        = ({ dbEmpty with profiles := dbEmpty.profiles ++ [profileC8] },
            .ok (some profileC8))
    ∧ createProfile { dbEmpty with profiles := dbEmpty.profiles ++ [profileC8] }
        profileC8
        = ({ dbEmpty with profiles := dbEmpty.profiles ++ [profileC8] },
            .ok (some profileC8))
    ∧ (({ dbEmpty with profiles := dbEmpty.profiles ++ [profileC8] } : Db).profiles.filter
        (fun q => q.id == profileC8.id)).length = 1 :=
  ⟨by decide,
    (profile_creation_idempotent dbEmpty profileC8 (by decide)).1,
    (profile_creation_idempotent dbEmpty profileC8 (by decide)).2.1,
    (profile_creation_idempotent dbEmpty profileC8 (by decide)).2.2.1⟩

/-- Sample category named Tools owned by principal 10. -/
def catC9 : Category :=
  { id := 1, name := "Tools", description := none, owner_id := some 10 }

/-- Sample store holding only `catC9`. -/
def dbC9 : Db :=
  { profiles := [], assets := [], categories := [catC9], asset_assignments := []
    asset_insurance := [], asset_notes := [], theft_reports := [] }

/-- Claim C9 counterexample: the `UNIQUE` constraint on
`categories.name` is table-wide, so principal 20 cannot create a
category named Tools while principal 10 already has one — refuting the
claim that two Categories belonging to different principals may share a
name. -/
theorem category_name_cross_owner_rejected :
    catC9.owner_id = some 10
    ∧ insertCategory dbC9
        { id := 2, name := "Tools", description := none, owner_id := some 20 }
      = .error "23505" :=
  ⟨rfl, rfl⟩

/-- Claim C9 as amended: category names are globally unique — the
schema's `UNIQUE` constraint on `name` applies across all owners, so
any two stored categories with the same name are the same record (in
particular names are unique per owner, and among the global ownerless
defaults), an insert reusing any stored name is rejected with the
duplicate-key error regardless of owner, and a successful insert
preserves global uniqueness. -/
theorem category_names_globally_unique (db : Db) (h : categoriesNameUnique db) :
    (∀ c ∈ db.categories, ∀ d ∈ db.categories, c.name = d.name → c = d)
    ∧ (∀ c : Category, (∃ d ∈ db.categories, d.name = c.name) →
        insertCategory db c = .error "23505")
    ∧ (∀ c : Category, ∀ db' : Db, insertCategory db c = .ok db' →
        categoriesNameUnique db') := by
  refine ⟨?_, ?_, ?_⟩
  · intro c hc d hd hname
    exact mem_eq_of_map_nodup h hc hd hname
  · rintro c ⟨d, hd, hname⟩
    have hany : db.categories.any (fun d => d.name == c.name) = true :=
      List.any_eq_true.mpr ⟨d, hd, by simp [hname]⟩
    simp [insertCategory, hany]
  · intro c db' hok
    unfold insertCategory at hok
    by_cases hdup : db.categories.any (fun d => d.name == c.name) = true
    · rw [if_pos hdup] at hok
      cases hok
    · rw [if_neg hdup] at hok
      injection hok with hok'
      subst hok'
      unfold categoriesNameUnique at h ⊢
      rw [List.map_append, List.nodup_append]
      refine ⟨h, by simp, ?_⟩
      intro x hx hx'
      rcases List.mem_map.mp hx with ⟨d, hd, hdx⟩
      simp only [List.map_cons, List.map_nil, List.mem_singleton] at hx'
      apply hdup
      exact List.any_eq_true.mpr ⟨d, hd, by simp [hdx, hx']⟩

/-- Witness for the amended claim C9: the global ownerless name Tools is
also blocked, because principal 10 already holds that name. -/
theorem category_names_globally_unique_witness :
    categoriesNameUnique dbC9
    ∧ insertCategory dbC9 { id := 3, name := "Tools", description := none, owner_id := none }
      = .error "23505" :=
  ⟨by decide,
    (category_names_globally_unique dbC9 (by decide)).2.1
      { id := 3, name := "Tools", description := none, owner_id := none }
      ⟨catC9, by simp [dbC9], rfl⟩⟩

/-- Claim C10: every profile row the application's lazy bootstrap paths
construct — the AuthContext `ensureProfileExists` insert, the
`AuthService.ensureProfileExists` row passed to `createProfile`, and
the AuthContext `signUp` insert — carries role admin, even though the
schema's declared column default is role user; no creation path uses
the user or viewer role. -/
theorem lazy_profile_role_admin (u : AuthUser) (id : Uuid)
    (email fullName : String) :
    (ensureProfileInsertRow u).role = .admin
    ∧ (authServiceProfileRow u).role = .admin
    ∧ (signUpProfileRow id email fullName).role = .admin
    ∧ profilesRoleDefault = .user
    ∧ (ensureProfileInsertRow u).role ≠ profilesRoleDefault
    ∧ (ensureProfileInsertRow u).role ≠ .viewer
    ∧ (authServiceProfileRow u).role ≠ .viewer
    ∧ (signUpProfileRow id email fullName).role ≠ .viewer :=
  ⟨rfl, rfl, rfl, rfl, show Role.admin ≠ Role.user by decide,
    show Role.admin ≠ Role.viewer by decide, show Role.admin ≠ Role.viewer by decide,
    show Role.admin ≠ Role.viewer by decide⟩
